import Mathlib

/-!
Shallow embedding of the PDF re-serializer in `src/main.cpp`.

The program builds a deduplicated object graph from a source document
(`VisitObject` and friends), classifies nodes as indirect
(`PDFObject::indirect`), assigns dense identifiers and serializes the
graph (`SavePDF`, `WriteObject`, `convertData`, `make_writable`).

Modelling conventions:
- `PDFObject*` pointers into the single global `objectList` arena are
  modelled as indices (`Nat`) into a `List Node`.
- machine integers: `size_t _refCount` is a `Nat`, `int _id` is an `Int`
  (the program only ever stores small non-negative values in them);
  stream payload bytes are `Nat`s below 256.
- the `float` member of `PDFNumber`'s union is represented only by the
  truncated integer view that `intValue()` exposes: no verified claim
  constructs or renders a real-valued number.
- recursion over the (possibly cyclic) pointer graph is bounded by an
  explicit fuel argument, decremented at every call; exhausting fuel
  models non-termination (for the builder: `none`).
-/

/-- Mirror of `CGPDFDataFormat`: the declared storage encoding of a
source stream (none / DCT-JPEG / JPEG2000). -/
inductive CGPDFDataFormat where
  | raw
  | jpegEncoded
  | jpeg2000
deriving DecidableEq, Repr

/-- Mirror of `PDFObject::type_t` (src/main.cpp lines 25-37). -/
inductive PDFType where
  | invalid
  | boolean
  | number
  | string
  | name
  | array
  | dict
  | stream
  | null
deriving DecidableEq, Repr

/-- Mirror of `PDFDictionary`'s state (lines 182-212): `map` is the
`std::map<std::string, PDFObject*> _value` (an association list with
insert-if-absent semantics, values being arena indices) and `order` the
`std::vector<std::string> _order` of keys in insertion order. -/
structure Dict where
  map : List (String × Nat)
  order : List String
deriving DecidableEq, Repr

/-- `PDFDictionary::count` (line 187): the size of the order vector. -/
def Dict.count (d : Dict) : Nat := d.order.length

/-- `PDFDictionary::value(key)` (lines 195-201): map lookup, null (none)
when the key is absent. -/
def Dict.valueKey (d : Dict) (k : String) : Option Nat := d.map.lookup k

/-- The bounds guard of `PDFDictionary::value(index, key)` (line 190):
it rejects only `i > count()`. -/
def Dict.idxGuardRejects (d : Dict) (i : Nat) : Bool := i > d.count

/-- `PDFDictionary::value(index, key)` (lines 188-194). The `_order[i]`
vector read is modelled by `List.get?`; whenever the guard admits an
index `i ≥ order.length` (which happens at `i = count`), the `none` of
that `get?` stands for a read past the end of the vector (undefined
behavior in the source). -/
def Dict.valueIdx (d : Dict) (i : Nat) : Option (String × Option Nat) :=
  if d.idxGuardRejects i then none
  else
    match d.order.get? i with
    | some k => some (k, d.valueKey k)
    | none => none

/-- `PDFDictionary::addValue` (lines 203-207): `std::map::insert` keeps
an existing binding; the key is always appended to the order vector. -/
def Dict.addValue (d : Dict) (k : String) (v : Nat) : Dict :=
  { map := if (d.map.lookup k).isSome then d.map else d.map ++ [(k, v)]
    order := d.order ++ [k] }

/-- The variant payload of a `PDFObject` (lines 101-248). Composite
variants hold arena indices in place of `PDFObject*` children. A stream
holds its parameter dictionary (owned by the stream, not itself an arena
node), its raw bytes, its `CGPDFDataFormat` and the mutable
`outputAsText` hint. -/
inductive PDFValue where
  | boolean (b : Bool)
  | number (isInt : Bool) (value : Int)
  | str (s : String)
  | name (s : String)
  | array (elems : List Nat)
  | dict (d : Dict)
  | stream (d : Dict) (data : List Nat) (format : CGPDFDataFormat) (outputAsText : Bool)
  | null
deriving DecidableEq, Repr

/-- `PDFObject::type()` for each concrete variant. -/
def PDFValue.typeOf : PDFValue → PDFType
  | .boolean _ => .boolean
  | .number _ _ => .number
  | .str _ => .string
  | .name _ => .name
  | .array _ => .array
  | .dict _ => .dict
  | .stream _ _ _ _ => .stream
  | .null => .null

/-- One built `PDFObject`: variant payload, `_refCount` (starts at 1)
and `_id` (0 until the indirection pass assigns an identifier). -/
structure Node where
  val : PDFValue
  refCount : Nat
  id : Int
deriving DecidableEq, Repr

/-- `PDFObject::isStream` (line 47): `type() == type_stream`. -/
def Node.isStream (n : Node) : Bool := decide (n.val.typeOf = PDFType.stream)

/-- `PDFObject::isDictionary` (line 46): `type() == type_dict`. -/
def Node.isDictionary (n : Node) : Bool := decide (n.val.typeOf = PDFType.dict)

/-- `PDFObject::indirect` (lines 85-88):
`_refCount > 1 or isStream() or isDictionary()`. -/
def Node.indirect (n : Node) : Bool :=
  decide (n.refCount > 1) || n.isStream || n.isDictionary

/-- The node a dangling arena index dereferences to. Builder-produced
indices are always in range, so no theorem exercises this default. -/
def nullNode : Node := ⟨.null, 1, 0⟩

/-- Dereference an arena index (a `PDFObject*`). -/
def getNode (arena : List Node) (i : Nat) : Node := (arena.get? i).getD nullNode

/-- Update the node an arena index points to (a mutation through a
`PDFObject*`). -/
def updateAt : List Node → Nat → (Node → Node) → List Node
  | [], _, _ => []
  | n :: rest, 0, f => f n :: rest
  | n :: rest, i + 1, f => n :: updateAt rest i f

/-- Character expansion of `make_writable` (lines 410-422): a space
becomes the three characters `#20`, everything else is copied. -/
def writableChars : List Char → List Char
  | [] => []
  | c :: rest => (if c = ' ' then ['#', '2', '0'] else [c]) ++ writableChars rest

/-- `make_writable` (lines 410-422). -/
def make_writable (s : String) : String := ⟨writableChars s.data⟩

/-- One hex digit as `convertData` computes it (lines 449-451):
`a >= 10 ? 'A' + a - 10 : '0' + a`. -/
def hexDigitChar (a : Nat) : Char :=
  if a ≥ 10 then Char.ofNat (Char.toNat 'A' + a - 10) else Char.ofNat (Char.toNat '0' + a)

/-- The two hex digits of one byte, per the masks in `convertData`
(lines 446-452): high nibble `(b & 0xF0) >> 4`, low nibble `b & 0x0F`. -/
def hexByte (b : Nat) : String :=
  ⟨[hexDigitChar ((Nat.land b 0xF0) >>> 4), hexDigitChar (Nat.land b 0x0F)]⟩

/-- The hex-armoring loop of `convertData` (lines 444-457); `i` counts
the bytes already emitted, and a newline follows a byte exactly when the
incremented count satisfies `i % 40 == 0`. -/
def convertLoop : List Nat → Nat → String
  | [], _ => ""
  | b :: rest, i =>
      hexByte b ++ (if (i + 1) % 40 == 0 then "\n" else "") ++ convertLoop rest (i + 1)

/-- Mirror of `ConvData` (lines 424-428): payload size and bytes. The
source sets `size` to the length of the buffer it copies, so the two
fields agree by construction here as well. -/
structure ConvData where
  size : Nat
  data : String
deriving DecidableEq, Repr

/-- Raw passthrough: the bytes copied unchanged (one `Char` per byte). -/
def rawString (bytes : List Nat) : String := ⟨bytes.map Char.ofNat⟩

/-- `convertData` (lines 429-465): raw copy when `doASCII` is false,
otherwise the hex-armored text followed by one trailing newline. -/
def convertData (bytes : List Nat) (doASCII : Bool) : ConvData :=
  if doASCII then
    let s := convertLoop bytes 0 ++ "\n"
    { size := s.length, data := s }
  else { size := bytes.length, data := rawString bytes }

/-- Concatenation of the pieces a C++ `ostream` loop emits in order. -/
def cat : List String → String
  | [] => ""
  | s :: rest => s ++ cat rest

/-- The `Type == /Metadata` test of `WriteObject`'s stream case
(lines 532-534): the parameter dictionary's `Type` value must exist, be
a name, and equal `Metadata`. -/
def isMetadataType (arena : List Node) (d : Dict) : Bool :=
  match d.valueKey "Type" with
  | some i =>
      match (getNode arena i).val with
      | .name s => s == "Metadata"
      | _ => false
  | none => false

/-- The encoding-mode choice of `WriteObject`'s stream case
(lines 531-537): armor unless `Type` is the name `Metadata` or the
stream was marked `outputAsText`. -/
def streamDoASCII (arena : List Node) (d : Dict) (outputAsText : Bool) : Bool :=
  if isMetadataType arena d then false
  else if outputAsText then false
  else true

/-- The filter-chain line of `WriteObject`'s stream case (lines 541-549);
raw passthrough declares no filter. -/
def filterLine (doASCII : Bool) (format : CGPDFDataFormat) : String :=
  if doASCII then
    match format with
    | .jpegEncoded => "/Filter [/ASCIIHexDecode /DCTDecode]\n"
    | .jpeg2000 => "/Filter [/ASCIIHexDecode /JPXDecode]\n"
    | .raw => "/Filter /ASCIIHexDecode\n"
  else ""

/-- One array element of `WriteObject`'s array case (lines 491-501):
an indirect child renders as `<id> 0 R `, an inline child recursively.
`w` is the recursive `WriteObject` call at the remaining fuel. -/
def arrayElemPiece (w : Node → String) (arena : List Node) (i : Nat) : String :=
  let o := getNode arena i
  if o.indirect then toString o.id ++ " 0 R " else w o ++ " "

/-- The body of `WriteObject`'s array loop (lines 491-501). -/
def arrayBodyW (w : Node → String) (arena : List Node) (elems : List Nat) : String :=
  cat (elems.map (arrayElemPiece w arena))

/-- The value part of one dictionary entry (lines 513-519): `<id> 0 R`
for an indirect child, recursive render otherwise, then a newline.
A key missing from the map would be a null dereference in the source;
builder-produced dictionaries always have every order key in the map. -/
def dictEntryValW (w : Node → String) (arena : List Node) (d : Dict) (k : String) : String :=
  match d.valueKey k with
  | some i =>
      let o := getNode arena i
      if o.indirect then toString o.id ++ " 0 R\n" else w o ++ "\n"
  | none => "\n"

/-- One dictionary entry line (lines 510-519): the key is emitted
verbatim after `/`, with no `make_writable` transform. -/
def dictEntryLineW (w : Node → String) (arena : List Node) (d : Dict) (k : String) : String :=
  "/" ++ k ++ " " ++ dictEntryValW w arena d k

/-- The body of `WriteObject`'s dictionary loop (lines 508-520). -/
def dictBodyW (w : Node → String) (arena : List Node) (d : Dict) (keys : List String) : String :=
  cat (keys.map (dictEntryLineW w arena d))

/-- One parameter-dictionary entry of `WriteObject`'s stream case
(lines 551-574): a source `Filter` entry is skipped, a source `Length`
entry is replaced by the computed `convData.size`, anything else renders
like a dictionary entry. -/
def streamEntryLineW (w : Node → String) (arena : List Node) (d : Dict) (convSize : Nat)
    (k : String) : String :=
  if k == "Filter" then ""
  else if k == "Length" then "/Length " ++ toString convSize ++ "\n"
  else dictEntryLineW w arena d k

/-- The body of `WriteObject`'s stream parameter-dictionary loop
(lines 551-574). -/
def streamBodyW (w : Node → String) (arena : List Node) (d : Dict) (convSize : Nat)
    (keys : List String) : String :=
  cat (keys.map (streamEntryLineW w arena d convSize))

/-- `WriteObject` (lines 467-587). The fuel bounds the depth of the
recursion into inline children; the builder never produces an inline
cycle, so every concrete render below uses ample fuel. -/
def writeObject (arena : List Node) : Nat → Node → String
  | 0, _ => ""
  | fuel + 1, n =>
    match n.val with
    | .boolean b => if b then "true " else "false "
    | .number _ v => toString v
    | .str s => "(" ++ s ++ ")"
    | .name s => "/" ++ make_writable s
    | .array elems =>
        "[ " ++ arrayBodyW (fun o => writeObject arena fuel o) arena elems ++ "]"
    | .dict d =>
        "<<\n" ++ dictBodyW (fun o => writeObject arena fuel o) arena d d.order ++ ">>"
    | .stream d data format outputAsText =>
        let doASCII := streamDoASCII arena d outputAsText
        let cd := convertData data doASCII
        "<<\n" ++ filterLine doASCII format
          ++ streamBodyW (fun o => writeObject arena fuel o) arena d cd.size d.order
          ++ ">>\nstream\n" ++ cd.data ++ "\nendstream"
    | .null => "null"

/-- The identifier-assignment loop at the top of `SavePDF`
(lines 321-327): `int i = 0; for each node: if indirect, setID(++i)`. -/
def assignIDs : List Node → Int → List Node
  | [], _ => []
  | n :: rest, i =>
      if n.indirect then { n with id := i + 1 } :: assignIDs rest (i + 1)
      else n :: assignIDs rest i

/-- Set a stream node's `outputAsText` hint (a no-op on other nodes,
matching the guarded `asStream()` casts in the source). -/
def setOutputAsText : Node → Node
  | ⟨.stream d data format _, rc, i⟩ => ⟨.stream d data format true, rc, i⟩
  | n => n

/-- One step of the content-marking pass of `SavePDF` (lines 330-371)
for the node at position `p`: a dictionary with `Type = /Page` marks its
`Contents` stream; a stream whose parameter dictionary has
`FunctionType = 4` marks itself. -/
def locateStep (arena : List Node) (p : Nat) : List Node :=
  match (getNode arena p).val with
  | .dict d =>
      (match d.valueKey "Type" with
       | some ti =>
           (match (getNode arena ti).val with
            | .name s =>
                if s == "Page" then
                  match d.valueKey "Contents" with
                  | some ci =>
                      (match (getNode arena ci).val with
                       | .stream _ _ _ _ => updateAt arena ci setOutputAsText
                       | _ => arena)
                  | none => arena
                else arena
            | _ => arena)
       | none => arena)
  | .stream sd _ _ _ =>
      (match sd.valueKey "FunctionType" with
       | some fi =>
           (match (getNode arena fi).val with
            | .number _ v => if v == 4 then updateAt arena p setOutputAsText else arena
            | _ => arena)
       | none => arena)
  | _ => arena

/-- The content-marking pass of `SavePDF` (lines 330-371), applied to
each list position in order. -/
def locateContents (arena : List Node) : List Node :=
  (List.range arena.length).foldl locateStep arena

/-- The body-writing loop of `SavePDF` (lines 379-390): the emitted
blocks and the xref map as a list of `(id, byte offset)` pairs in
emission order (ids ascend, so this is also `std::map` order); `pos` is
the running offset from the start of the header. -/
def writeBody (arena : List Node) (fuel : Nat) : List Node → Nat → String × List (Int × Nat)
  | [], _ => ("", [])
  | n :: rest, pos =>
      if n.indirect then
        let block := toString n.id ++ " 0 obj\n" ++ writeObject arena fuel n ++ "\nendobj\n"
        let r := writeBody arena fuel rest (pos + block.length)
        (block ++ r.1, (n.id, pos) :: r.2)
      else writeBody arena fuel rest pos

/-- `std::setfill('0') << std::setw(10)` applied to a byte offset. -/
def pad10 (n : Nat) : String :=
  let s := toString n
  (⟨List.replicate (10 - s.length) '0'⟩ : String) ++ s

/-- The entry lines of the cross-reference table (lines 396-399): the
reserved all-zero entry followed by one line per id `1 .. xref.size()`
(`xref[i]` with `operator[]` defaulting to 0, as in the source). -/
def xrefEntryLines (xref : List (Int × Nat)) : List String :=
  "0000000000 00000 n \n" ::
    (List.range xref.length).map
      (fun j => pad10 ((xref.lookup (Int.ofNat (j + 1))).getD 0) ++ " 00000 n \n")

/-- The cross-reference table (lines 393-399); the count printed in its
header is `xref.size()`. -/
def xrefSection (xref : List (Int × Nat)) : String :=
  "xref\n" ++ "0 " ++ toString xref.length ++ "\n" ++ cat (xrefEntryLines xref)

/-- The trailer and footer (lines 401-407); `/Size` is `xref.size()`. -/
def trailerSection (xref : List (Int × Nat)) (rootID infoID : Int) (startXref : Nat) : String :=
  "trailer\n" ++ "<< /Size " ++ toString xref.length ++ " /Root " ++ toString rootID
    ++ " 0 R /Info " ++ toString infoID ++ " 0 R>>\n"
    ++ "startxref\n" ++ toString startXref ++ "\n" ++ "%%EOF\n"

/-- `SavePDF` (lines 317-408), with the document root and info record
given as arena indices. -/
def savePDF (fuel : Nat) (majorVersion minorVersion : Int) (objectList : List Node)
    (rootIdx infoIdx : Nat) : String :=
  let l1 := assignIDs objectList 0
  let l2 := locateContents l1
  let header :=
    "%PDF-" ++ toString majorVersion ++ "." ++ toString minorVersion ++ "\n" ++ "%...\n"
  let br := writeBody l2 fuel l2 header.length
  let startXref := header.length + br.1.length
  header ++ br.1 ++ xrefSection br.2
    ++ trailerSection br.2 (getNode l2 rootIdx).id (getNode l2 infoIdx).id startXref

/-- A source-document node as the `CGPDF` reader exposes it. Children
are referenced by source identity; `IDRef` (lines 250-305) collapses an
object wrapper and its underlying container to one identity, which the
model captures by making the identity simply an index into the
document's node table. -/
inductive SrcContent where
  | null
  | boolean (b : Bool)
  | integer (v : Int)
  | realNum (v : Int)
  | name (s : String)
  | str (s : String)
  | array (elems : List Nat)
  | dict (entries : List (String × Nat))
  | stream (entries : List (String × Nat)) (data : List Nat) (format : CGPDFDataFormat)
deriving DecidableEq, Repr

/-- A source document: its node table, indexed by source identity. -/
structure SrcDoc where
  nodes : List SrcContent
deriving DecidableEq, Repr

/-- Mirror of `Context` (lines 307-311): the global node list and the
deduplication table from source identity to arena index. -/
structure Context where
  objectList : List Node
  visited : List (Nat × Nat)
deriving DecidableEq, Repr

/-- `ctx.visited.find(id)` (an `unordered_map` lookup; keys are unique
by construction, so an association list is faithful). -/
def lookupVisited (ctx : Context) (srcId : Nat) : Option Nat := ctx.visited.lookup srcId

/-- `visit->second->inc()` (line 83): bump the reference count of the
already-built node. -/
def incAt (ctx : Context) (i : Nat) : Context :=
  { ctx with objectList := updateAt ctx.objectList i (fun n => { n with refCount := n.refCount + 1 }) }

/-- Shared body of the six scalar visitors (`VisitNull`, `VisitBoolean`,
`VisitInteger`, `VisitFloat`, `VisitName`, `VisitString`,
lines 736-834) after their dedup check (which `VisitObject` has already
performed and which therefore re-misses): create the node, register it
in the dedup table, append it to the global list. -/
def appendLeaf (ctx : Context) (srcId : Nat) (v : PDFValue) : Context :=
  ⟨ctx.objectList ++ [⟨v, 1, 0⟩], (srcId, ctx.objectList.length) :: ctx.visited⟩

/-- Attach a built child to the dictionary node at an arena index
(`ptr->addValue(it, found->second)`, line 666). -/
def Node.addDictValue (k : String) (child : Nat) : Node → Node
  | ⟨.dict d, rc, i⟩ => ⟨.dict (d.addValue k child), rc, i⟩
  | n => n

/-- Attach a built child to the array node at an arena index
(`ptr->addValue(found->second)`, line 731). -/
def Node.addArrayValue (child : Nat) : Node → Node
  | ⟨.array elems, rc, i⟩ => ⟨.array (elems ++ [child]), rc, i⟩
  | n => n

mutual

/-- `VisitObject` (lines 836-894): dedup check, then dispatch on the
source node's type. `none` models fuel exhaustion (the unbounded
recursion of the source) or an assertion failure on a malformed source
handle. -/
def visitObject : Nat → SrcDoc → Nat → Context → Option Context
  | 0, _, _, _ => none
  | fuel + 1, doc, srcId, ctx =>
    match lookupVisited ctx srcId with
    | some i => some (incAt ctx i)
    | none =>
      match doc.nodes.get? srcId with
      | some .null => some (appendLeaf ctx srcId .null)
      | some (.boolean b) => some (appendLeaf ctx srcId (.boolean b))
      | some (.integer v) => some (appendLeaf ctx srcId (.number true v))
      | some (.realNum v) => some (appendLeaf ctx srcId (.number false v))
      | some (.name s) => some (appendLeaf ctx srcId (.name s))
      | some (.str s) => some (appendLeaf ctx srcId (.str s))
      | some (.array _) => visitArray fuel doc srcId ctx
      | some (.dict _) => (visitDict fuel doc srcId ctx).map (fun r => r.1)
      | some (.stream _ _ _) => visitStream fuel doc srcId ctx
      | none => none
termination_by structural f _ _ _ => f

/-- `VisitDict` (lines 641-670): the new node is registered in the
dedup table and appended to the global list *before* its children are
visited. Returns the built node's arena index (the `PDFObject*` the
source returns). -/
def visitDict : Nat → SrcDoc → Nat → Context → Option (Context × Nat)
  | 0, _, _, _ => none
  | fuel + 1, doc, srcId, ctx =>
    match lookupVisited ctx srcId with
    | some i => some (incAt ctx i, i)
    | none =>
      match doc.nodes.get? srcId with
      | some (.dict entries) =>
          let idx := ctx.objectList.length
          let ctx1 : Context :=
            ⟨ctx.objectList ++ [⟨.dict ⟨[], []⟩, 1, 0⟩], (srcId, idx) :: ctx.visited⟩
          (visitChildren fuel doc entries idx ctx1).map (fun c => (c, idx))
      | _ => none
termination_by structural f _ _ _ => f

/-- The key loop of `VisitDict` (lines 658-668): visit each value, look
its identity up in the dedup table (the `assert(found != end)` failing
is `none`), and attach the built child to the dictionary at `idx`. -/
def visitChildren : Nat → SrcDoc → List (String × Nat) → Nat → Context → Option Context
  | _, _, [], _, ctx => some ctx
  | 0, _, _ :: _, _, _ => none
  | fuel + 1, doc, (k, v) :: rest, idx, ctx =>
      match visitObject fuel doc v ctx with
      | some ctx1 =>
          match lookupVisited ctx1 v with
          | some child =>
              visitChildren fuel doc rest idx
                { ctx1 with objectList := updateAt ctx1.objectList idx (Node.addDictValue k child) }
          | none => none
      | none => none
termination_by structural f _ _ _ _ => f

/-- `VisitStream` (lines 672-707): the children of the parameter
dictionary are visited *first*, into a local dictionary; the stream
itself is created, registered in the dedup table and appended to the
global list only afterwards. -/
def visitStream : Nat → SrcDoc → Nat → Context → Option Context
  | 0, _, _, _ => none
  | fuel + 1, doc, srcId, ctx =>
    match lookupVisited ctx srcId with
    | some i => some (incAt ctx i)
    | none =>
      match doc.nodes.get? srcId with
      | some (.stream entries data format) =>
          (visitStreamDict fuel doc entries ⟨[], []⟩ ctx).map (fun r =>
            ⟨r.1.objectList ++ [⟨.stream r.2 data format false, 1, 0⟩],
             (srcId, r.1.objectList.length) :: r.1.visited⟩)
      | _ => none
termination_by structural f _ _ _ => f

/-- The key loop of `VisitStream` (lines 688-698): children are visited
and attached to the stream's local parameter dictionary, which is not
itself an arena node. -/
def visitStreamDict : Nat → SrcDoc → List (String × Nat) → Dict → Context →
    Option (Context × Dict)
  | _, _, [], d, ctx => some (ctx, d)
  | 0, _, _ :: _, _, _ => none
  | fuel + 1, doc, (k, v) :: rest, d, ctx =>
      match visitObject fuel doc v ctx with
      | some ctx1 =>
          match lookupVisited ctx1 v with
          | some child => visitStreamDict fuel doc rest (d.addValue k child) ctx1
          | none => none
      | none => none
termination_by structural f _ _ _ _ => f

/-- `VisitArray` (lines 709-734): registered before recursing, like
`VisitDict`. -/
def visitArray : Nat → SrcDoc → Nat → Context → Option Context
  | 0, _, _, _ => none
  | fuel + 1, doc, srcId, ctx =>
    match lookupVisited ctx srcId with
    | some i => some (incAt ctx i)
    | none =>
      match doc.nodes.get? srcId with
      | some (.array elems) =>
          let idx := ctx.objectList.length
          let ctx1 : Context :=
            ⟨ctx.objectList ++ [⟨.array [], 1, 0⟩], (srcId, idx) :: ctx.visited⟩
          visitElems fuel doc elems idx ctx1
      | _ => none
termination_by structural f _ _ _ => f

/-- The element loop of `VisitArray` (lines 723-733). -/
def visitElems : Nat → SrcDoc → List Nat → Nat → Context → Option Context
  | _, _, [], _, ctx => some ctx
  | 0, _, _ :: _, _, _ => none
  | fuel + 1, doc, v :: rest, idx, ctx =>
      match visitObject fuel doc v ctx with
      | some ctx1 =>
          match lookupVisited ctx1 v with
          | some child =>
              visitElems fuel doc rest idx
                { ctx1 with objectList := updateAt ctx1.objectList idx (Node.addArrayValue child) }
          | none => none
      | none => none

termination_by structural f _ _ _ _ => f
end

/-- Modelled from the spec: the identifier sequence the specification
promises the indirect nodes, `start+1, start+2, ...` (`len` of them). -/
def denseSeq : Int → Nat → List Int
  | _, 0 => []
  | s, len + 1 => (s + 1) :: denseSeq (s + 1) len

/-- Modelled from the spec: the uppercase hexadecimal digit table. -/
def specHexDigits : List Char :=
  ['0', '1', '2', '3', '4', '5', '6', '7', '8', '9', 'A', 'B', 'C', 'D', 'E', 'F']

/-- Modelled from the spec: one byte as two uppercase hex digits, high
nibble first. -/
def specHexPair (b : Nat) : String :=
  ⟨[specHexDigits.getD (b / 16) '?', specHexDigits.getD (b % 16) '?']⟩

/-- Modelled from the spec (amended): hex armor with a countdown `r` of
source bytes remaining before the next line break; `r` starts at 40 and
resets to 40 after each break, so a break follows every 40th source
byte (every 80 output characters). -/
def specArmorAux : List Nat → Nat → String
  | [], _ => ""
  | b :: rest, r =>
      specHexPair b ++ (if r = 1 then "\n" else "")
        ++ specArmorAux rest (if r = 1 then 40 else r - 1)

/-- Modelled from the spec claim (C5 as stated): the same armoring but
with a line break after every 20 source bytes (40 output characters). -/
def claimArmorAux : List Nat → Nat → String
  | [], _ => ""
  | b :: rest, r =>
      specHexPair b ++ (if r = 1 then "\n" else "")
        ++ claimArmorAux rest (if r = 1 then 20 else r - 1)

/-- Modelled from the spec claim (C5 as stated): full claimed armor
output, with the trailing line break. -/
def claimArmor (bytes : List Nat) : String := claimArmorAux bytes 20 ++ "\n"

/-- Does `s` begin with `p`? (For the substring test below.) -/
def beginsWith : List Char → List Char → Bool
  | _, [] => true
  | [], _ :: _ => false
  | c :: s, p :: ps => c == p && beginsWith s ps

/-- Does `pat` occur contiguously anywhere in `s`? -/
def hasSub : List Char → List Char → Bool
  | [], pat => beginsWith [] pat
  | c :: s, pat => beginsWith (c :: s) pat || hasSub s pat

/-- String version of `hasSub`. -/
def strHasSub (s pat : String) : Bool := hasSub s.data pat.data

/-- C1's failing input: a single stream whose parameter dictionary
contains an entry referencing the stream itself (a cyclic source
graph). -/
def c1doc : SrcDoc := ⟨[.stream [("Self", 0)] [] .raw]⟩

/-- C4's input: a one-node arena holding a dictionary that serves as
both catalog and info record (reference count 2, as after two root
visits of the same source dictionary). -/
def c4List : List Node := [⟨.dict ⟨[], []⟩, 2, 0⟩]

/-- C4's xref map as `SavePDF` builds it for `c4List` (the assignment
pass gives the dictionary id 1; the header is 14 bytes long). -/
def c4Xref : List (Int × Nat) :=
  (writeBody (locateContents (assignIDs c4List 0)) 3 (locateContents (assignIDs c4List 0)) 14).2

/-- C5's counterexample input: 21 zero bytes. -/
def c5Bytes : List Nat := List.replicate 21 0

/-- C6's counterexample input: a stream whose source parameter
dictionary is empty (no `Length` key), with three payload bytes. -/
def c6Stream : Node := ⟨.stream ⟨[], []⟩ [1, 2, 3] .raw false, 1, 0⟩

/-- C8's source graph, parametric in the strings: two distinct
dictionaries (ids 0 and 1) each holding one entry that references the
same shared name node (id 2). -/
def c8doc (k1 k2 nm : String) : SrcDoc :=
  ⟨[.dict [(k1, 2)], .dict [(k2, 2)], .name nm]⟩

/-- C8's pipeline, as `main` (lines 616-625) runs it: visit the first
root dictionary, then the second against the same context, then run the
identifier-assignment pass over the shared node list. -/
def c8run (k1 k2 nm : String) : Option (List Node) :=
  match visitDict 9 (c8doc k1 k2 nm) 0 ⟨[], []⟩ with
  | some r1 =>
      match visitDict 9 (c8doc k1 k2 nm) 1 r1.1 with
      | some r2 => some (assignIDs r2.1.objectList 0)
      | none => none
  | none => none

/-- C8's built arena, for the serialization conjuncts. -/
def c8arena (k1 k2 nm : String) : List Node :=
  [⟨.dict ⟨[(k1, 1)], [k1]⟩, 1, 1⟩, ⟨.name nm, 2, 2⟩, ⟨.dict ⟨[(k2, 1)], [k2]⟩, 1, 3⟩]

/-- C6 amended witness inputs: a stream parameter dictionary with a
`Length` key whose value references the number node in the arena. -/
def c6WitnessDict : Dict := ⟨[("Length", 0)], ["Length"]⟩

/-- C6 amended witness arena: the `Length` value node. -/
def c6WitnessArena : List Node := [⟨.number true 99, 1, 0⟩]

/-- C9's failing input: a dictionary with exactly one key. -/
def c9Dict : Dict := ⟨[("Key", 0)], ["Key"]⟩

/-- C2: a node is indirect exactly when its reference count exceeds 1
or it is a dictionary or a stream. -/
theorem c2_indirect_iff (n : Node) :
    n.indirect = true ↔
      1 < n.refCount ∨ n.val.typeOf = PDFType.dict ∨ n.val.typeOf = PDFType.stream := by
  simp only [Node.indirect, Node.isStream, Node.isDictionary, Bool.or_eq_true,
    decide_eq_true_eq]
  tauto

/-- C9: for the one-key dictionary `c9Dict` and index `1 = count`, the
bounds guard of `PDFDictionary::value(index, key)` does not reject the
index, although the subsequent `_order[1]` vector read is out of bounds
(the claim says every index `i ≥ count` is rejected safely). -/
theorem c9_index_guard_off_by_one :
    c9Dict.count = 1 ∧ c9Dict.idxGuardRejects 1 = false ∧ c9Dict.order.get? 1 = none := by
  decide

set_option maxRecDepth 4000 in
/-- C4: on a document with exactly one indirect object, the serialized
output declares `0 1` in the xref header and `/Size 1` in the trailer,
while the table actually contains 2 entry lines (the free-list head
plus one object) — so header count and Size are the number of indirect
objects, not that number plus one, and do not match the emitted entry
count. -/
theorem c4_xref_count_mismatch :
    savePDF 3 1 4 c4List 0 0 =
      "%PDF-1.4\n%...\n1 0 obj\n<<\n>>\nendobj\nxref\n0 1\n0000000000 00000 n \n0000000014 00000 n \ntrailer\n<< /Size 1 /Root 1 0 R /Info 1 0 R>>\nstartxref\n35\n%%EOF\n"
    ∧ (c4List.filter (fun n => n.indirect)).length = 1
    ∧ c4Xref = [(1, 14)]
    ∧ xrefSection c4Xref = "xref\n" ++ "0 1\n" ++ cat (xrefEntryLines c4Xref)
    ∧ (xrefEntryLines c4Xref).length = 2
    ∧ strHasSub (trailerSection c4Xref 1 1 35) "/Size 1 " = true := by
  decide

/-- C5 counterexample: on a 21-byte payload the armored output has no
internal line break (43 characters), while the claimed break-every-20-
source-bytes rendering would have 44; the claim as stated is false. -/
theorem c5_20_byte_wrap_counterexample :
    (convertData c5Bytes true).data.length = 43
    ∧ (claimArmor c5Bytes).length = 44
    ∧ (convertData c5Bytes true).data ≠ claimArmor c5Bytes := by
  decide

/-- C6 counterexample: a stream whose source parameter dictionary has
no `Length` key serializes with no `/Length` entry at all; the claim
that every stream's output contains a computed `Length` is false. -/
theorem c6_missing_length_counterexample :
    writeObject [] 2 c6Stream = "<<\n/Filter /ASCIIHexDecode\n>>\nstream\n010203\n\nendstream"
    ∧ strHasSub (writeObject [] 2 c6Stream) "/Length" = false := by
  decide

/-- For any fuel and any context not yet containing the cyclic stream's
identity, visiting it (or its dedup-unregistered re-entry) exhausts the
fuel: `VisitStream` registers the stream only after visiting its
children, so the self-reference re-enters `VisitStream` forever. -/
theorem c1_aux : ∀ fuel : Nat, ∀ ctx : Context, lookupVisited ctx 0 = none →
    visitObject fuel c1doc 0 ctx = none
    ∧ visitStream fuel c1doc 0 ctx = none
    ∧ ∀ d : Dict, visitStreamDict fuel c1doc [("Self", 0)] d ctx = none := by
  intro fuel
  induction fuel using Nat.strong_induction_on with
  | _ fuel ih =>
    match fuel with
    | 0 => exact fun ctx h => ⟨rfl, rfl, fun d => rfl⟩
    | f + 1 =>
      intro ctx h
      obtain ⟨H1, H2, H3⟩ := ih f (Nat.lt_succ_self f) ctx h
      simp only [c1doc] at H1 H2 H3 ⊢
      refine ⟨?_, ?_, ?_⟩
      · simp [visitObject, h, H2]
      · simp [visitStream, h, H3 ⟨[], []⟩]
      · intro d
        simp [visitStreamDict, H1]

/-- C1: building the cyclic source graph whose stream's parameter
dictionary references the stream itself never terminates, whatever the
fuel — the builder does not register a new Stream node in the
deduplication table before recursing into its children, so this cycle
never resolves to the already-created node (the claim's
register-before-recurse property fails for the Stream variant). -/
theorem c1_stream_cycle_diverges (fuel : Nat) :
    visitObject fuel c1doc 0 ⟨[], []⟩ = none :=
  (c1_aux fuel ⟨[], []⟩ rfl).1

theorem indirect_set_id (n : Node) (i : Int) :
    ({ n with id := i } : Node).indirect = n.indirect := rfl

theorem assignIDs_filter_map (l : List Node) : ∀ k : Int,
    ((assignIDs l k).filter (fun n => n.indirect)).map (fun n => n.id)
      = denseSeq k (l.countP (fun n => n.indirect)) := by
  induction l with
  | nil => intro k; rfl
  | cons n rest ih =>
    intro k
    by_cases hn : n.indirect
    · have h1 : assignIDs (n :: rest) k = { n with id := k + 1 } :: assignIDs rest (k + 1) := by
        simp [assignIDs, hn]
      rw [h1, List.filter_cons, List.countP_cons]
      simp only [indirect_set_id, hn, if_pos, List.map_cons, ih (k + 1)]
      simp [denseSeq, hn]
    · have h1 : assignIDs (n :: rest) k = n :: assignIDs rest k := by
        simp [assignIDs, hn]
      rw [h1, List.filter_cons, List.countP_cons]
      simp [hn, ih k]

theorem assignIDs_keeps_zero (l : List Node) : ∀ k : Int, (∀ n ∈ l, n.id = 0) →
    ∀ n ∈ assignIDs l k, n.indirect = false → n.id = 0 := by
  induction l with
  | nil => intro k h n hn; simp [assignIDs] at hn
  | cons m rest ih =>
    intro k h n hn hind
    by_cases hm : m.indirect
    · have h1 : assignIDs (m :: rest) k = { m with id := k + 1 } :: assignIDs rest (k + 1) := by
        simp [assignIDs, hm]
      rw [h1, List.mem_cons] at hn
      rcases hn with rfl | hn
      · rw [indirect_set_id] at hind
        rw [hm] at hind
        cases hind
      · exact ih (k + 1) (fun x hx => h x (List.mem_cons_of_mem m hx)) n hn hind
    · have h1 : assignIDs (m :: rest) k = m :: assignIDs rest k := by
        simp [assignIDs, hm]
      rw [h1, List.mem_cons] at hn
      rcases hn with rfl | hn
      · exact h n (List.mem_cons_self n rest)
      · exact ih k (fun x hx => h x (List.mem_cons_of_mem m hx)) n hn hind

theorem denseSeq_eq_range' (K : Nat) : ∀ s : Nat,
    denseSeq (Int.ofNat s) K = (List.range' (s + 1) K).map Int.ofNat := by
  induction K with
  | zero => intro s; rfl
  | succ K ih =>
    intro s
    show (Int.ofNat s + 1) :: denseSeq (Int.ofNat s + 1) K = _
    have hs : (Int.ofNat s) + 1 = Int.ofNat (s + 1) := (Int.ofNat_succ s).symm
    rw [hs, ih (s + 1), List.range'_succ, List.map_cons]

/-- C3: after the identifier-assignment pass, the ids of the indirect
nodes, in list order, are exactly the dense sequence `1..K` (`K` = the
number of indirect nodes), and every non-indirect node keeps id 0 (no
identifier), provided all ids start at 0 as the builder produces them. -/
theorem c3_dense_ids (l : List Node) (h : ∀ n ∈ l, n.id = 0) :
    ((assignIDs l 0).filter (fun n => n.indirect)).map (fun n => n.id)
        = denseSeq 0 (l.countP (fun n => n.indirect))
    ∧ (∀ n ∈ assignIDs l 0, n.indirect = false → n.id = 0)
    ∧ denseSeq 0 (l.countP (fun n => n.indirect))
        = (List.range' 1 (l.countP (fun n => n.indirect))).map Int.ofNat :=
  ⟨assignIDs_filter_map l 0, assignIDs_keeps_zero l 0 h, denseSeq_eq_range' _ 0⟩

/-- C3 witness: the pass on a concrete three-node list (indirect
dictionary, inline boolean, indirect thrice-referenced name). -/
theorem c3_dense_ids_witness :
    ((assignIDs [⟨.dict ⟨[], []⟩, 1, 0⟩, ⟨.boolean true, 1, 0⟩, ⟨.name "N", 3, 0⟩] 0).filter
        (fun n => n.indirect)).map (fun n => n.id)
      = denseSeq 0
          (([⟨.dict ⟨[], []⟩, 1, 0⟩, ⟨.boolean true, 1, 0⟩,
              ⟨.name "N", 3, 0⟩] : List Node).countP (fun n => n.indirect))
    ∧ (∀ n ∈ assignIDs [⟨.dict ⟨[], []⟩, 1, 0⟩, ⟨.boolean true, 1, 0⟩, ⟨.name "N", 3, 0⟩] 0,
        n.indirect = false → n.id = 0)
    ∧ denseSeq 0
          (([⟨.dict ⟨[], []⟩, 1, 0⟩, ⟨.boolean true, 1, 0⟩,
              ⟨.name "N", 3, 0⟩] : List Node).countP (fun n => n.indirect))
        = (List.range' 1
            (([⟨.dict ⟨[], []⟩, 1, 0⟩, ⟨.boolean true, 1, 0⟩,
                ⟨.name "N", 3, 0⟩] : List Node).countP (fun n => n.indirect))).map Int.ofNat :=
  c3_dense_ids _ (by decide)

set_option maxRecDepth 4000 in
theorem hexByte_eq_specHexPair : ∀ b < 256, hexByte b = specHexPair b := by decide

theorem convertLoop_eq_specArmorAux : ∀ (bytes : List Nat) (i : Nat),
    (∀ b ∈ bytes, b < 256) →
    convertLoop bytes i = specArmorAux bytes (40 - i % 40) := by
  intro bytes
  induction bytes with
  | nil => intro i h; rfl
  | cons b rest ih =>
    intro i h
    have hb : hexByte b = specHexPair b :=
      hexByte_eq_specHexPair b (h b (List.mem_cons_self b rest))
    have hrest : ∀ x ∈ rest, x < 256 := fun x hx => h x (List.mem_cons_of_mem b hx)
    show hexByte b ++ (if (i + 1) % 40 == 0 then "\n" else "") ++ convertLoop rest (i + 1)
        = specHexPair b ++ (if 40 - i % 40 = 1 then "\n" else "")
          ++ specArmorAux rest (if 40 - i % 40 = 1 then 40 else (40 - i % 40) - 1)
    rw [hb, ih (i + 1) hrest]
    by_cases hc : i % 40 = 39
    · have h1 : (i + 1) % 40 = 0 := by omega
      have h2 : 40 - i % 40 = 1 := by omega
      rw [h1, h2]
      norm_num
    · have h1 : (i + 1) % 40 = i % 40 + 1 := by omega
      have h2 : ¬((i + 1) % 40 == 0) = true := by simp [h1]
      have h3 : ¬(40 - i % 40 = 1) := by omega
      have h4 : 40 - (i + 1) % 40 = (40 - i % 40) - 1 := by omega
      rw [if_neg h2, if_neg h3, if_neg h3, h4]

/-- C5 amended: hex armor emits each byte (below 256) as two uppercase
hex digits and inserts a line break after every 40th source byte (i.e.
every 80 output characters), plus a trailing line break; `size` is the
length of that armored text. -/
theorem c5_wrap_every_40_bytes (bytes : List Nat) (h : ∀ b ∈ bytes, b < 256) :
    (convertData bytes true).data = specArmorAux bytes 40 ++ "\n"
    ∧ (convertData bytes true).size = (specArmorAux bytes 40 ++ "\n").length := by
  have he := convertLoop_eq_specArmorAux bytes 0 h
  norm_num at he
  constructor
  · show convertLoop bytes 0 ++ "\n" = _
    rw [he]
  · show (convertLoop bytes 0 ++ "\n").length = _
    rw [he]

/-- C5 amended witness: the armor of the three bytes 0, 171, 255. -/
theorem c5_wrap_witness :
    (convertData [0, 171, 255] true).data = specArmorAux [0, 171, 255] 40 ++ "\n"
    ∧ (convertData [0, 171, 255] true).size = (specArmorAux [0, 171, 255] 40 ++ "\n").length :=
  c5_wrap_every_40_bytes _ (by decide)

/-- C6 amended: for a stream whose source parameter dictionary does
contain a `Length` key, the rendered output's dictionary body includes
the line `/Length <n>` where `n` is the computed post-encoding payload
size, that size equals the byte length of the payload actually written
between `stream` and `endstream`, and any source `Filter` entry renders
as nothing (suppressed). -/
theorem c6_length_postencoding (arena : List Node) (fuel : Nat) (d : Dict) (data : List Nat)
    (format : CGPDFDataFormat) (outputAsText : Bool) (rc : Nat) (i : Int)
    (h : "Length" ∈ d.order) :
    writeObject arena (fuel + 1) ⟨.stream d data format outputAsText, rc, i⟩ =
      "<<\n" ++ filterLine (streamDoASCII arena d outputAsText) format
        ++ streamBodyW (fun o => writeObject arena fuel o) arena d
             (convertData data (streamDoASCII arena d outputAsText)).size d.order
        ++ ">>\nstream\n" ++ (convertData data (streamDoASCII arena d outputAsText)).data
        ++ "\nendstream"
    ∧ (convertData data (streamDoASCII arena d outputAsText)).size
        = (convertData data (streamDoASCII arena d outputAsText)).data.length
    ∧ ("/Length " ++ toString (convertData data (streamDoASCII arena d outputAsText)).size ++ "\n")
        ∈ d.order.map (streamEntryLineW (fun o => writeObject arena fuel o) arena d
             (convertData data (streamDoASCII arena d outputAsText)).size)
    ∧ streamEntryLineW (fun o => writeObject arena fuel o) arena d
        (convertData data (streamDoASCII arena d outputAsText)).size "Filter" = "" := by
  refine ⟨rfl, ?_, ?_, rfl⟩
  · by_cases hd : streamDoASCII arena d outputAsText
    · simp [convertData, hd]
    · simp [convertData, hd, rawString, String.length]
  · exact List.mem_map_of_mem
      (streamEntryLineW (fun o => writeObject arena fuel o) arena d
        (convertData data (streamDoASCII arena d outputAsText)).size) h

/-- C7: if the parameter dictionary's `Type` is the name `Metadata` or
the textual-content hint is set, the body is the raw bytes with no
filter line; otherwise the body is the hex armor and the filter line is
`[/ASCIIHexDecode /DCTDecode]` for DCT/JPEG, `[/ASCIIHexDecode
/JPXDecode]` for JPEG2000, and `/ASCIIHexDecode` alone for raw. -/
theorem c7_stream_encoding (arena : List Node) (fuel : Nat) (d : Dict) (data : List Nat)
    (format : CGPDFDataFormat) (outputAsText : Bool) (rc : Nat) (i : Int) :
    (isMetadataType arena d = true ∨ outputAsText = true →
      writeObject arena (fuel + 1) ⟨.stream d data format outputAsText, rc, i⟩ =
        "<<\n" ++ streamBodyW (fun o => writeObject arena fuel o) arena d data.length d.order
          ++ ">>\nstream\n" ++ rawString data ++ "\nendstream")
    ∧ (isMetadataType arena d = false → outputAsText = false →
      writeObject arena (fuel + 1) ⟨.stream d data format outputAsText, rc, i⟩ =
        "<<\n"
          ++ (match format with
              | .jpegEncoded => "/Filter [/ASCIIHexDecode /DCTDecode]\n"
              | .jpeg2000 => "/Filter [/ASCIIHexDecode /JPXDecode]\n"
              | .raw => "/Filter /ASCIIHexDecode\n")
          ++ streamBodyW (fun o => writeObject arena fuel o) arena d
               (convertLoop data 0 ++ "\n").length d.order
          ++ ">>\nstream\n" ++ (convertLoop data 0 ++ "\n") ++ "\nendstream") := by
  constructor
  · intro h
    have hD : streamDoASCII arena d outputAsText = false := by
      rcases h with h | h <;> simp [streamDoASCII, h]
    simp [writeObject, hD, convertData, filterLine, rawString]
  · intro h1 h2
    have hD : streamDoASCII arena d outputAsText = true := by
      simp [streamDoASCII, h1, h2]
    simp [writeObject, hD, convertData, filterLine]

/-- C6 amended witness: a concrete raw stream with a `Length` key. -/
theorem c6_length_witness :
    writeObject c6WitnessArena 2 ⟨.stream c6WitnessDict [1, 2] .raw false, 1, 0⟩ =
      "<<\n" ++ filterLine (streamDoASCII c6WitnessArena c6WitnessDict false) .raw
        ++ streamBodyW (fun o => writeObject c6WitnessArena 1 o) c6WitnessArena c6WitnessDict
             (convertData [1, 2] (streamDoASCII c6WitnessArena c6WitnessDict false)).size
             c6WitnessDict.order
        ++ ">>\nstream\n"
        ++ (convertData [1, 2] (streamDoASCII c6WitnessArena c6WitnessDict false)).data
        ++ "\nendstream"
    ∧ (convertData [1, 2] (streamDoASCII c6WitnessArena c6WitnessDict false)).size
        = (convertData [1, 2] (streamDoASCII c6WitnessArena c6WitnessDict false)).data.length
    ∧ ("/Length "
        ++ toString (convertData [1, 2] (streamDoASCII c6WitnessArena c6WitnessDict false)).size
        ++ "\n")
        ∈ c6WitnessDict.order.map (streamEntryLineW (fun o => writeObject c6WitnessArena 1 o)
            c6WitnessArena c6WitnessDict
            (convertData [1, 2] (streamDoASCII c6WitnessArena c6WitnessDict false)).size)
    ∧ streamEntryLineW (fun o => writeObject c6WitnessArena 1 o) c6WitnessArena c6WitnessDict
        (convertData [1, 2] (streamDoASCII c6WitnessArena c6WitnessDict false)).size "Filter"
        = "" :=
  c6_length_postencoding c6WitnessArena 1 c6WitnessDict [1, 2] .raw false 1 0 (by decide)

/-- C7 witness: a DCT-tagged stream, once with the textual hint (raw
body, no filter) and once without (armored body, DCT filter chain). -/
theorem c7_stream_encoding_witness :
    writeObject [] 1 ⟨.stream ⟨[], []⟩ [7] .jpegEncoded true, 1, 0⟩ =
      "<<\n" ++ streamBodyW (fun o => writeObject [] 0 o) [] ⟨[], []⟩ ([7] : List Nat).length
          (⟨[], []⟩ : Dict).order
        ++ ">>\nstream\n" ++ rawString [7] ++ "\nendstream"
    ∧ writeObject [] 1 ⟨.stream ⟨[], []⟩ [7] .jpegEncoded false, 1, 0⟩ =
      "<<\n" ++ "/Filter [/ASCIIHexDecode /DCTDecode]\n"
        ++ streamBodyW (fun o => writeObject [] 0 o) [] ⟨[], []⟩
             (convertLoop [7] 0 ++ "\n").length (⟨[], []⟩ : Dict).order
        ++ ">>\nstream\n" ++ (convertLoop [7] 0 ++ "\n") ++ "\nendstream" :=
  ⟨(c7_stream_encoding [] 0 ⟨[], []⟩ [7] .jpegEncoded true 1 0).1 (Or.inr rfl),
   (c7_stream_encoding [] 0 ⟨[], []⟩ [7] .jpegEncoded false 1 0).2 (by decide) rfl⟩

theorem writableChars_length_ge : ∀ l : List Char, l.length ≤ (writableChars l).length := by
  intro l
  induction l with
  | nil => simp [writableChars]
  | cons c rest ih =>
    by_cases hc : c = ' ' <;> simp [writableChars, hc] <;> omega

theorem writableChars_length_lt : ∀ l : List Char, ' ' ∈ l →
    l.length < (writableChars l).length := by
  intro l
  induction l with
  | nil => intro h; cases h
  | cons c rest ih =>
    intro h
    by_cases hc : c = ' '
    · have := writableChars_length_ge rest
      simp [writableChars, hc]
      omega
    · rcases List.mem_cons.mp h with h1 | h1
      · exact absurd h1.symm hc
      · have := ih h1
        simp [writableChars, hc]
        omega

theorem make_writable_ne (k : String) (hk : ' ' ∈ k.data) : make_writable k ≠ k := by
  intro he
  have hl : (make_writable k).length = k.length := by rw [he]
  have h1 : (writableChars k.data).length = k.data.length := hl
  have h2 := writableChars_length_lt k.data hk
  omega

/-- C10: a dictionary (or stream parameter dictionary) entry renders
its key verbatim after `/`, while a Name node's value does go through
`make_writable`, which changes any string containing a space — so keys
with spaces are emitted unescaped. -/
theorem c10_dict_keys_verbatim (arena : List Node) (fuel : Nat) (d : Dict) (k : String)
    (n : Nat) (rc : Nat) (i : Int) (hk : ' ' ∈ k.data) :
    dictEntryLineW (fun o => writeObject arena fuel o) arena d k
        = "/" ++ k ++ " " ++ dictEntryValW (fun o => writeObject arena fuel o) arena d k
    ∧ (k ≠ "Filter" → k ≠ "Length" →
        streamEntryLineW (fun o => writeObject arena fuel o) arena d n k
          = dictEntryLineW (fun o => writeObject arena fuel o) arena d k)
    ∧ writeObject arena (fuel + 1) ⟨.name k, rc, i⟩ = "/" ++ make_writable k
    ∧ make_writable k ≠ k := by
  refine ⟨rfl, ?_, rfl, make_writable_ne k hk⟩
  intro hF hL
  have h1 : (k == "Filter") = false := beq_eq_false_iff_ne.mpr hF
  have h2 : (k == "Length") = false := beq_eq_false_iff_ne.mpr hL
  simp [streamEntryLineW, h1, h2]

/-- C10 witness: the key `"a b"` (which contains a space). -/
theorem c10_dict_keys_verbatim_witness :
    dictEntryLineW (fun o => writeObject [] 0 o) [] ⟨[], []⟩ "a b"
        = "/" ++ "a b" ++ " " ++ dictEntryValW (fun o => writeObject [] 0 o) [] ⟨[], []⟩ "a b"
    ∧ ("a b" ≠ "Filter" → "a b" ≠ "Length" →
        streamEntryLineW (fun o => writeObject [] 0 o) [] ⟨[], []⟩ 7 "a b"
          = dictEntryLineW (fun o => writeObject [] 0 o) [] ⟨[], []⟩ "a b")
    ∧ writeObject [] 1 ⟨.name "a b", 1, 0⟩ = "/" ++ make_writable "a b"
    ∧ make_writable "a b" ≠ "a b" :=
  c10_dict_keys_verbatim [] 0 ⟨[], []⟩ "a b" 7 1 0 (by decide)

/-- C8: for the two-dictionary source graph sharing one Name node
(whatever the key and name strings), the built arena holds a single
Name node with reference count 2, that node is indirect (id 2), and
both dictionaries render it as the reference `2 0 R` rather than as an
inline copy. -/
theorem c8_shared_name_indirect (k1 k2 nm : String) :
    c8run k1 k2 nm = some (c8arena k1 k2 nm)
    ∧ getNode (c8arena k1 k2 nm) 1 = ⟨.name nm, 2, 2⟩
    ∧ (⟨.name nm, 2, 2⟩ : Node).indirect = true
    ∧ writeObject (c8arena k1 k2 nm) 9 (getNode (c8arena k1 k2 nm) 0)
        = "<<\n" ++ "/" ++ k1 ++ " " ++ "2 0 R\n" ++ ">>"
    ∧ writeObject (c8arena k1 k2 nm) 9 (getNode (c8arena k1 k2 nm) 2)
        = "<<\n" ++ "/" ++ k2 ++ " " ++ "2 0 R\n" ++ ">>" := by
  refine ⟨?_, rfl, rfl, ?_, ?_⟩
  · simp [c8run, c8doc, c8arena, visitDict, visitChildren, visitObject, lookupVisited,
      appendLeaf, incAt, updateAt, Node.addDictValue, Dict.addValue, assignIDs, Node.indirect,
      Node.isStream, Node.isDictionary, List.lookup, PDFValue.typeOf]
  · simp [writeObject, dictBodyW, dictEntryLineW, dictEntryValW, cat, Dict.valueKey,
      List.lookup, getNode, c8arena, Node.indirect, Node.isStream, Node.isDictionary,
      PDFValue.typeOf, show toString (2 : Int) = "2" from rfl, String.append_assoc]
    rw [← String.append_assoc]
    rfl
  · simp [writeObject, dictBodyW, dictEntryLineW, dictEntryValW, cat, Dict.valueKey,
      List.lookup, getNode, c8arena, Node.indirect, Node.isStream, Node.isDictionary,
      PDFValue.typeOf, show toString (2 : Int) = "2" from rfl, String.append_assoc]
    rw [← String.append_assoc]
    rfl
